import Mathlib

/-!
Shallow embedding of the people-tracking and counting engine of
`src/tracker.py` (`class PeopleTracker`), together with theorems checking
the specification's claims about it.

Modelling conventions:
* Pixel coordinates are `Int`; Python's floor division `//` is `Int.fdiv`.
* Frame indices and counters are `Nat` (they start at 0 and only grow;
  Python's `frame_id - last_frame_id > threshold` agrees with truncated
  `Nat` subtraction because both sides treat a non-positive gap as
  "not stale").
* The Python dict `tracked_objects` is an insertion-ordered association
  list `List (Nat × Track)`: updating an existing key keeps its position,
  a new key is appended — exactly CPython dict semantics.
* `int(h * 0.9)` and `int(h * 0.1)` are modelled as `9 * h / 10` and
  `h / 10` in `Nat`: for every nonnegative integer `h` the IEEE-double
  computation truncates to exactly that value.
* All drawing calls (`cv2.line`, `cv2.rectangle`, `cv2.putText`) only
  annotate the output image and never feed back into the engine state;
  they are omitted.  Likewise the local set `updated_tracked_ids` of
  `update` is written but never read in the source, so it has no
  semantic effect and is omitted.
-/

/-- One tracked person, the value stored in `self.tracked_objects[id]`. -/
structure Track where
  bbox : Int × Int × Int × Int
  centroid : Int × Int
  lane : String
  status : String
  counted_in : Bool
  counted_out : Bool
  last_frame_id : Nat
deriving DecidableEq

/-- A detection tuple `(x1, y1, x2, y2, label)`. -/
abbrev Detection := Int × Int × Int × Int × String

/-- The mutable state of a `PeopleTracker` instance. -/
structure PeopleTracker where
  mode : String
  lane_split_x : Option Int
  entry_y_threshold : Option Int
  exit_y_threshold : Option Int
  tracked_objects : List (Nat × Track)
  next_id : Nat
  in_count : Nat
  out_count : Nat
  frame_id : Nat
  max_dist_sq : Int
  stale_frame_threshold : Nat
deriving DecidableEq

/-- `PeopleTracker.__init__`. -/
def initTracker (mode : String) : PeopleTracker :=
  { mode := mode
    lane_split_x := none
    entry_y_threshold := none
    exit_y_threshold := none
    tracked_objects := []
    next_id := 0
    in_count := 0
    out_count := 0
    frame_id := 0
    max_dist_sq := 5000
    stale_frame_threshold := 30 }

/-- `PeopleTracker._get_centroid`: `((x1 + x2) // 2, (y1 + y2) // 2)`. -/
def get_centroid (bbox : Int × Int × Int × Int) : Int × Int :=
  ((bbox.1 + bbox.2.2.1).fdiv 2, (bbox.2.1 + bbox.2.2.2).fdiv 2)

/-- `PeopleTracker._distance_sq`: squared Euclidean distance. -/
def distance_sq (p1 p2 : Int × Int) : Int :=
  (p1.1 - p2.1) ^ 2 + (p1.2 - p2.2) ^ 2

/-- `PeopleTracker.reset_counts`. -/
def reset_counts (st : PeopleTracker) : PeopleTracker :=
  { st with
    in_count := 0
    out_count := 0
    tracked_objects := []
    next_id := 0
    frame_id := 0 }

/-- The bounding box of a detection tuple. -/
def detBbox (det : Detection) : Int × Int × Int × Int :=
  (det.1, det.2.1, det.2.2.1, det.2.2.2.1)

/-- The label of a detection tuple (`d[4]`). -/
def detLabel (det : Detection) : String :=
  det.2.2.2.2

/-- The centroid of a detection's bounding box. -/
def detCentroid (det : Detection) : Int × Int :=
  get_centroid (detBbox det)

/-- `d < min_dist` of the matching loop, where `none` is the initial
`min_dist = float('inf')`. -/
def beats (d : Int) : Option (Nat × Int) → Prop
  | none => True
  | some q => d < q.2

instance (d : Int) (b : Option (Nat × Int)) : Decidable (beats d b) :=
  match b with
  | none => isTrue trivial
  | some q => inferInstanceAs (Decidable (d < q.2))

/-- The guard of the matching loop body:
`obj_data['status'] == 'active' and dist < min_dist and dist < max_dist_sq`. -/
def takeCond (c : Int × Int) (maxd : Int) (best : Option (Nat × Int))
    (p : Nat × Track) : Prop :=
  p.2.status = "active" ∧ beats (distance_sq c p.2.centroid) best ∧
    distance_sq c p.2.centroid < maxd

instance (c : Int × Int) (maxd : Int) (best : Option (Nat × Int))
    (p : Nat × Track) : Decidable (takeCond c maxd best p) :=
  inferInstanceAs (Decidable (_ ∧ _ ∧ _))

/-- A track that is an eligible match for a detection with centroid `c`:
active and strictly inside the distance gate. -/
def qual (c : Int × Int) (maxd : Int) (p : Nat × Track) : Prop :=
  p.2.status = "active" ∧ distance_sq c p.2.centroid < maxd

instance (c : Int × Int) (maxd : Int) (p : Nat × Track) :
    Decidable (qual c maxd p) :=
  inferInstanceAs (Decidable (_ ∧ _))

/-- The matching loop of `update` (lines 88–97): scan the tracks in
iteration order, keeping the best `(matched_id, min_dist)` so far. -/
def findMatchAux (c : Int × Int) (maxd : Int) :
    List (Nat × Track) → Option (Nat × Int) → Option (Nat × Int)
  | [], best => best
  | p :: rest, best =>
    if takeCond c maxd best p then
      findMatchAux c maxd rest (some (p.1, distance_sq c p.2.centroid))
    else
      findMatchAux c maxd rest best

/-- The matching loop started with `matched_id = None`, `min_dist = inf`. -/
def findMatch (c : Int × Int) (maxd : Int) (l : List (Nat × Track)) :
    Option (Nat × Int) :=
  findMatchAux c maxd l none

/-- The fresh track created for an unmatched detection (lines 107–115). -/
def newTrack (det : Detection) (fid : Nat) : Track :=
  { bbox := detBbox det
    centroid := detCentroid det
    lane := "unknown"
    status := "active"
    counted_in := false
    counted_out := false
    last_frame_id := fid }

/-- One iteration of the association loop of `update` (lines 84–117):
either mutate the matched track or append a fresh one. -/
def processDetection (st : PeopleTracker) (det : Detection) : PeopleTracker :=
  match findMatch (detCentroid det) st.max_dist_sq st.tracked_objects with
  | some m =>
    { st with
      tracked_objects := st.tracked_objects.map fun p =>
        if p.1 = m.1 then
          (p.1, { p.2 with
                  bbox := detBbox det
                  centroid := detCentroid det
                  last_frame_id := st.frame_id })
        else p }
  | none =>
    { st with
      tracked_objects :=
        st.tracked_objects ++ [(st.next_id, newTrack det st.frame_id)]
      next_id := st.next_id + 1 }

/-- The association loop over all person detections of the frame. -/
def associate (st : PeopleTracker) (persons : List Detection) : PeopleTracker :=
  persons.foldl processDetection st

/-- Stale-track removal (lines 119–125): drop every track whose gap
`frame_id - last_frame_id` exceeds the staleness threshold. -/
def removeStale (st : PeopleTracker) : PeopleTracker :=
  { st with
    tracked_objects := st.tracked_objects.filter fun p =>
      decide (st.frame_id - p.2.last_frame_id ≤ st.stale_frame_threshold) }

/-- Lazy threshold initialization of `update` (lines 63–69), a no-op
outside Lane Counter mode. -/
def initThresholds (st : PeopleTracker) (fh fw : Nat) : PeopleTracker :=
  if st.mode = "Lane Counter" then
    { st with
      lane_split_x := some (st.lane_split_x.getD ((fw / 2 : Nat) : Int))
      entry_y_threshold :=
        some (st.entry_y_threshold.getD ((9 * fh / 10 : Nat) : Int))
      exit_y_threshold :=
        some (st.exit_y_threshold.getD ((fh / 10 : Nat) : Int)) }
  else st

/-- The per-track body of the Lane Counter loop (lines 138–167):
recompute the lane from the centroid, then run the entry and exit
crossing checks, returning the updated track and counters. -/
def countTrack (split entryY exitY : Int) (p : Nat × Track)
    (inc outc : Nat) : Track × Nat × Nat :=
  let lane : String := if p.2.centroid.1 < split then "enter" else "exit"
  let t1 : Track := { p.2 with lane := lane }
  let t2 : Track :=
    if lane = "enter" ∧ t1.bbox.2.2.2 > entryY ∧ t1.counted_in = false then
      { t1 with counted_in := true }
    else t1
  let inc2 : Nat :=
    if lane = "enter" ∧ t1.bbox.2.2.2 > entryY ∧ t1.counted_in = false then
      inc + 1
    else inc
  let t3 : Track :=
    if lane = "exit" ∧ t2.bbox.2.1 < exitY ∧ t2.counted_out = false then
      { t2 with counted_out := true }
    else t2
  let outc2 : Nat :=
    if lane = "exit" ∧ t2.bbox.2.1 < exitY ∧ t2.counted_out = false then
      outc + 1
    else outc
  (t3, inc2, outc2)

/-- The Lane Counter loop over all remaining tracks, threading the
counters through in iteration order. -/
def countFold (split entryY exitY : Int) :
    List (Nat × Track) → Nat → Nat → List (Nat × Track) × Nat × Nat
  | [], inc, outc => ([], inc, outc)
  | p :: rest, inc, outc =>
    let r := countTrack split entryY exitY p inc outc
    let rr := countFold split entryY exitY rest r.2.1 r.2.2
    ((p.1, r.1) :: rr.1, rr.2.1, rr.2.2)

/-- The counting phase of `update` (lines 127–170): Eagle‑Eye reports the
raw person-detection count, Lane Counter runs the crossing checks and
reports `in_count - out_count`; any other mode leaves the initial 0. -/
def countingPhase (st : PeopleTracker) (personsLen : Nat) :
    Int × PeopleTracker :=
  if st.mode = "Eagle‑Eye" then
    ((personsLen : Int), st)
  else if st.mode = "Lane Counter" then
    let split := st.lane_split_x.getD 0
    let eY := st.entry_y_threshold.getD 0
    let exY := st.exit_y_threshold.getD 0
    let r := countFold split eY exY st.tracked_objects st.in_count st.out_count
    let st5 : PeopleTracker :=
      { st with tracked_objects := r.1, in_count := r.2.1, out_count := r.2.2 }
    (((st5.in_count : Int) - (st5.out_count : Int)), st5)
  else (0, st)

/-- The tuple returned by `update`; the annotated frame is replaced by the
post-call engine state. -/
structure UpdateResult where
  in_count : Nat
  out_count : Nat
  net_people_total : Int
  state : PeopleTracker
deriving DecidableEq

/-- `PeopleTracker.update` over a frame of height `fh` and width `fw`. -/
def update (st : PeopleTracker) (detections : List Detection) (fh fw : Nat) :
    UpdateResult :=
  let st2 := initThresholds { st with frame_id := st.frame_id + 1 } fh fw
  let persons := detections.filter fun d => decide (detLabel d = "person")
  let st4 := removeStale (associate st2 persons)
  let r := countingPhase st4 persons.length
  { in_count := r.2.in_count
    out_count := r.2.out_count
    net_people_total := r.1
    state := r.2 }

/-! ### Field-preservation lemmas for the phases of `update` -/

@[simp] theorem processDetection_mode (st : PeopleTracker) (det : Detection) :
    (processDetection st det).mode = st.mode := by
  unfold processDetection; split <;> rfl

@[simp] theorem processDetection_lane_split (st : PeopleTracker) (det : Detection) :
    (processDetection st det).lane_split_x = st.lane_split_x := by
  unfold processDetection; split <;> rfl

@[simp] theorem processDetection_entry (st : PeopleTracker) (det : Detection) :
    (processDetection st det).entry_y_threshold = st.entry_y_threshold := by
  unfold processDetection; split <;> rfl

@[simp] theorem processDetection_exit (st : PeopleTracker) (det : Detection) :
    (processDetection st det).exit_y_threshold = st.exit_y_threshold := by
  unfold processDetection; split <;> rfl

@[simp] theorem processDetection_in (st : PeopleTracker) (det : Detection) :
    (processDetection st det).in_count = st.in_count := by
  unfold processDetection; split <;> rfl

@[simp] theorem processDetection_out (st : PeopleTracker) (det : Detection) :
    (processDetection st det).out_count = st.out_count := by
  unfold processDetection; split <;> rfl

@[simp] theorem processDetection_frame (st : PeopleTracker) (det : Detection) :
    (processDetection st det).frame_id = st.frame_id := by
  unfold processDetection; split <;> rfl

@[simp] theorem processDetection_maxd (st : PeopleTracker) (det : Detection) :
    (processDetection st det).max_dist_sq = st.max_dist_sq := by
  unfold processDetection; split <;> rfl

@[simp] theorem processDetection_stale (st : PeopleTracker) (det : Detection) :
    (processDetection st det).stale_frame_threshold = st.stale_frame_threshold := by
  unfold processDetection; split <;> rfl

@[simp] theorem associate_nil (st : PeopleTracker) : associate st [] = st := rfl

theorem associate_cons (st : PeopleTracker) (d : Detection) (l : List Detection) :
    associate st (d :: l) = associate (processDetection st d) l := rfl

@[simp] theorem associate_mode (l : List Detection) :
    ∀ st : PeopleTracker, (associate st l).mode = st.mode := by
  induction l with
  | nil => intro st; rfl
  | cons d l ih => intro st; rw [associate_cons, ih, processDetection_mode]

@[simp] theorem associate_lane_split (l : List Detection) :
    ∀ st : PeopleTracker, (associate st l).lane_split_x = st.lane_split_x := by
  induction l with
  | nil => intro st; rfl
  | cons d l ih => intro st; rw [associate_cons, ih, processDetection_lane_split]

@[simp] theorem associate_entry (l : List Detection) :
    ∀ st : PeopleTracker, (associate st l).entry_y_threshold = st.entry_y_threshold := by
  induction l with
  | nil => intro st; rfl
  | cons d l ih => intro st; rw [associate_cons, ih, processDetection_entry]

@[simp] theorem associate_exit (l : List Detection) :
    ∀ st : PeopleTracker, (associate st l).exit_y_threshold = st.exit_y_threshold := by
  induction l with
  | nil => intro st; rfl
  | cons d l ih => intro st; rw [associate_cons, ih, processDetection_exit]

@[simp] theorem associate_in (l : List Detection) :
    ∀ st : PeopleTracker, (associate st l).in_count = st.in_count := by
  induction l with
  | nil => intro st; rfl
  | cons d l ih => intro st; rw [associate_cons, ih, processDetection_in]

@[simp] theorem associate_out (l : List Detection) :
    ∀ st : PeopleTracker, (associate st l).out_count = st.out_count := by
  induction l with
  | nil => intro st; rfl
  | cons d l ih => intro st; rw [associate_cons, ih, processDetection_out]

@[simp] theorem associate_frame (l : List Detection) :
    ∀ st : PeopleTracker, (associate st l).frame_id = st.frame_id := by
  induction l with
  | nil => intro st; rfl
  | cons d l ih => intro st; rw [associate_cons, ih, processDetection_frame]

@[simp] theorem associate_maxd (l : List Detection) :
    ∀ st : PeopleTracker, (associate st l).max_dist_sq = st.max_dist_sq := by
  induction l with
  | nil => intro st; rfl
  | cons d l ih => intro st; rw [associate_cons, ih, processDetection_maxd]

@[simp] theorem associate_stale (l : List Detection) :
    ∀ st : PeopleTracker, (associate st l).stale_frame_threshold = st.stale_frame_threshold := by
  induction l with
  | nil => intro st; rfl
  | cons d l ih => intro st; rw [associate_cons, ih, processDetection_stale]

@[simp] theorem removeStale_mode (st : PeopleTracker) :
    (removeStale st).mode = st.mode := rfl

@[simp] theorem removeStale_lane_split (st : PeopleTracker) :
    (removeStale st).lane_split_x = st.lane_split_x := rfl

@[simp] theorem removeStale_entry (st : PeopleTracker) :
    (removeStale st).entry_y_threshold = st.entry_y_threshold := rfl

@[simp] theorem removeStale_exit (st : PeopleTracker) :
    (removeStale st).exit_y_threshold = st.exit_y_threshold := rfl

@[simp] theorem removeStale_in (st : PeopleTracker) :
    (removeStale st).in_count = st.in_count := rfl

@[simp] theorem removeStale_out (st : PeopleTracker) :
    (removeStale st).out_count = st.out_count := rfl

@[simp] theorem removeStale_frame (st : PeopleTracker) :
    (removeStale st).frame_id = st.frame_id := rfl

@[simp] theorem removeStale_next (st : PeopleTracker) :
    (removeStale st).next_id = st.next_id := rfl

@[simp] theorem initThresholds_mode (st : PeopleTracker) (fh fw : Nat) :
    (initThresholds st fh fw).mode = st.mode := by
  unfold initThresholds; split <;> rfl

@[simp] theorem initThresholds_tracked (st : PeopleTracker) (fh fw : Nat) :
    (initThresholds st fh fw).tracked_objects = st.tracked_objects := by
  unfold initThresholds; split <;> rfl

@[simp] theorem initThresholds_in (st : PeopleTracker) (fh fw : Nat) :
    (initThresholds st fh fw).in_count = st.in_count := by
  unfold initThresholds; split <;> rfl

@[simp] theorem initThresholds_out (st : PeopleTracker) (fh fw : Nat) :
    (initThresholds st fh fw).out_count = st.out_count := by
  unfold initThresholds; split <;> rfl

@[simp] theorem initThresholds_frame (st : PeopleTracker) (fh fw : Nat) :
    (initThresholds st fh fw).frame_id = st.frame_id := by
  unfold initThresholds; split <;> rfl

@[simp] theorem initThresholds_next (st : PeopleTracker) (fh fw : Nat) :
    (initThresholds st fh fw).next_id = st.next_id := by
  unfold initThresholds; split <;> rfl

@[simp] theorem initThresholds_maxd (st : PeopleTracker) (fh fw : Nat) :
    (initThresholds st fh fw).max_dist_sq = st.max_dist_sq := by
  unfold initThresholds; split <;> rfl

@[simp] theorem initThresholds_stale (st : PeopleTracker) (fh fw : Nat) :
    (initThresholds st fh fw).stale_frame_threshold = st.stale_frame_threshold := by
  unfold initThresholds; split <;> rfl

@[simp] theorem countingPhase_mode (st : PeopleTracker) (n : Nat) :
    (countingPhase st n).2.mode = st.mode := by
  unfold countingPhase; split <;> [rfl; split <;> rfl]

@[simp] theorem countingPhase_lane_split (st : PeopleTracker) (n : Nat) :
    (countingPhase st n).2.lane_split_x = st.lane_split_x := by
  unfold countingPhase; split <;> [rfl; split <;> rfl]

@[simp] theorem countingPhase_entry (st : PeopleTracker) (n : Nat) :
    (countingPhase st n).2.entry_y_threshold = st.entry_y_threshold := by
  unfold countingPhase; split <;> [rfl; split <;> rfl]

@[simp] theorem countingPhase_exit (st : PeopleTracker) (n : Nat) :
    (countingPhase st n).2.exit_y_threshold = st.exit_y_threshold := by
  unfold countingPhase; split <;> [rfl; split <;> rfl]

@[simp] theorem countingPhase_frame (st : PeopleTracker) (n : Nat) :
    (countingPhase st n).2.frame_id = st.frame_id := by
  unfold countingPhase; split <;> [rfl; split <;> rfl]

@[simp] theorem countingPhase_next (st : PeopleTracker) (n : Nat) :
    (countingPhase st n).2.next_id = st.next_id := by
  unfold countingPhase; split <;> [rfl; split <;> rfl]

theorem countingPhase_eagle (st : PeopleTracker) (n : Nat)
    (hm : st.mode = "Eagle‑Eye") : countingPhase st n = ((n : Int), st) := by
  unfold countingPhase; rw [hm]; rfl

/-! ### C5, C6: reset and occupancy total -/

/-- C5: `reset_counts` zeroes `in_count`, `out_count`, empties the
active-track set, restarts the id allocator and the frame counter at 0,
and leaves the lane split, the entry/exit thresholds and the mode at
their previous values; it is a total function on states. -/
theorem C5_reset_counts (st : PeopleTracker) :
    (reset_counts st).in_count = 0 ∧ (reset_counts st).out_count = 0 ∧
    (reset_counts st).tracked_objects = [] ∧ (reset_counts st).next_id = 0 ∧
    (reset_counts st).frame_id = 0 ∧
    (reset_counts st).lane_split_x = st.lane_split_x ∧
    (reset_counts st).entry_y_threshold = st.entry_y_threshold ∧
    (reset_counts st).exit_y_threshold = st.exit_y_threshold ∧
    (reset_counts st).mode = st.mode :=
  ⟨rfl, rfl, rfl, rfl, rfl, rfl, rfl, rfl, rfl⟩

/-- C6: in Eagle‑Eye mode the total reported by `update` equals the number
of current-frame detections labelled `"person"`, whatever the track set or
the prior history stored in `st`. -/
theorem C6_eagle_total (st : PeopleTracker) (dets : List Detection)
    (fh fw : Nat) (hm : st.mode = "Eagle‑Eye") :
    (update st dets fh fw).net_people_total =
      ((dets.filter fun d => decide (detLabel d = "person")).length : Int) := by
  have h4 : (removeStale (associate
      (initThresholds { st with frame_id := st.frame_id + 1 } fh fw)
      (dets.filter fun d => decide (detLabel d = "person")))).mode
      = "Eagle‑Eye" := by
    simp [hm]
  simp only [update, countingPhase_eagle _ _ h4]

/-- Witness for C6 at a concrete input: a fresh Eagle‑Eye engine given one
person and one car detection reports a total of 1. -/
theorem C6_eagle_total_witness :
    (update (initTracker "Eagle‑Eye")
      [(1, 2, 3, 4, "person"), (1, 2, 3, 4, "car")] 480 640).net_people_total
      = 1 :=
  (C6_eagle_total (initTracker "Eagle‑Eye")
    [(1, 2, 3, 4, "person"), (1, 2, 3, 4, "car")] 480 640 rfl).trans (by decide)

/-! ### C1: per-frame matching is not one-to-one -/

/-- Frame 1 of the C1 run: one person detection with centroid `(100, 100)`. -/
def c1s1 : PeopleTracker :=
  (update (initTracker "Eagle‑Eye") [(90, 90, 110, 110, "person")] 480 640).state

/-- Frame 2 of the C1 run: two person detections, with centroids
`(100, 100)` and `(102, 100)`, both within the gate of track 0. -/
def c1s2 : PeopleTracker :=
  (update c1s1
    [(90, 90, 110, 110, "person"), (92, 90, 112, 110, "person")] 480 640).state

/-- C1 counterexample: after frame 1 there is exactly track 0 at
`(100, 100)`; on frame 2 both detections match track 0 — no second track is
created (`next_id` is still 1) and track 0 ends at the second detection's
centroid `(102, 100)`.  Under the claimed restriction of candidates to
still-unassigned tracks, the second detection would have spawned track 1. -/
theorem C1_counterexample :
    (c1s1.tracked_objects.map fun p => (p.1, p.2.centroid)) = [(0, (100, 100))] ∧
    c1s1.next_id = 1 ∧
    (c1s2.tracked_objects.map fun p => (p.1, p.2.centroid)) = [(0, (102, 100))] ∧
    c1s2.next_id = 1 := by decide

/-- C1 amended: each detection is assigned to at most one track — it either
mutates the single matched id returned by the matching loop or appends one
fresh track — but its candidate set is the full active-track set, not
restricted by assignments made earlier in the same frame, so several
detections of one frame may match (and successively overwrite) the same
track. -/
theorem C1_per_detection_effect (st : PeopleTracker) (det : Detection) :
    (∃ m, findMatch (detCentroid det) st.max_dist_sq st.tracked_objects = some m ∧
      (processDetection st det).tracked_objects = (st.tracked_objects.map fun p =>
        if p.1 = m.1 then
          (p.1, { p.2 with
                  bbox := detBbox det
                  centroid := detCentroid det
                  last_frame_id := st.frame_id })
        else p) ∧
      (processDetection st det).next_id = st.next_id) ∨
    (findMatch (detCentroid det) st.max_dist_sq st.tracked_objects = none ∧
      (processDetection st det).tracked_objects =
        st.tracked_objects ++ [(st.next_id, newTrack det st.frame_id)] ∧
      (processDetection st det).next_id = st.next_id + 1) := by
  cases h : findMatch (detCentroid det) st.max_dist_sq st.tracked_objects with
  | some m =>
    exact Or.inl ⟨m, rfl, by simp [processDetection, h], by simp [processDetection, h]⟩
  | none =>
    exact Or.inr ⟨rfl, by simp [processDetection, h], by simp [processDetection, h]⟩

/-! ### C7: the concrete two-detections-then-absence scenario -/

/-- The detections of frame `n` in the C7 scenario. -/
def c7Dets : Nat → List Detection := fun n =>
  if n = 1 then [(90, 90, 110, 110, "person")]
  else if n = 2 then [(100, 90, 120, 110, "person")]
  else []

/-- The engine state after the first `n` frames of the C7 scenario, on
480×640 frames in Lane Counter mode. -/
def c7State : Nat → PeopleTracker
  | 0 => initTracker "Lane Counter"
  | n + 1 => (update (c7State n) (c7Dets (n + 1)) 480 640).state

set_option maxRecDepth 40000 in
/-- C7 counterexample: on frame 32 track 0 is still in the active set
(its gap is `32 - 2 = 30`, which does not exceed the threshold 30), so the
claimed eviction on frame 32 does not happen. -/
theorem C7_counterexample :
    (c7State 32).frame_id = 32 ∧
    ((c7State 32).tracked_objects.map fun p => p.1) = [0] := by decide

set_option maxRecDepth 40000 in
/-- C7 amended: frame 1 creates track 0 with lane `enter` and centroid
`(100, 100)` (lane split 320 for the 640-wide frame, gate 5000); frame 2
keeps id 0 and moves it to `(110, 100)` (squared distance 100 < 5000);
the track is still active on frame 32 and is evicted on frame 33. -/
theorem C7_scenario :
    (c7State 1).lane_split_x = some 320 ∧
    (c7State 1).max_dist_sq = 5000 ∧
    ((c7State 1).tracked_objects.map fun p => (p.1, p.2.lane, p.2.centroid))
      = [(0, "enter", (100, 100))] ∧
    (c7State 1).next_id = 1 ∧
    ((c7State 2).tracked_objects.map fun p => (p.1, p.2.lane, p.2.centroid))
      = [(0, "enter", (110, 100))] ∧
    (c7State 2).next_id = 1 ∧
    distance_sq (110, 100) (100, 100) = 100 ∧
    ((c7State 32).tracked_objects.map fun p => p.1) = [0] ∧
    (c7State 33).tracked_objects = [] := by decide

/-! ### Characterization of the matching loop -/

theorem findMatchAux_isSome (c : Int × Int) (maxd : Int) :
    ∀ (l : List (Nat × Track)) (q : Nat × Int),
    (findMatchAux c maxd l (some q)).isSome := by
  intro l
  induction l with
  | nil => intro q; rfl
  | cons p rest ih =>
    intro q
    simp only [findMatchAux]
    split
    · exact ih _
    · exact ih _

theorem findMatchAux_none_all (c : Int × Int) (maxd : Int) :
    ∀ (l : List (Nat × Track)) (b : Option (Nat × Int)),
    findMatchAux c maxd l b = none → b = none ∧ ∀ p ∈ l, ¬ qual c maxd p := by
  intro l
  induction l with
  | nil => intro b h; exact ⟨h, by simp⟩
  | cons p rest ih =>
    intro b h
    simp only [findMatchAux] at h
    by_cases hc : takeCond c maxd b p
    · rw [if_pos hc] at h
      have hs := findMatchAux_isSome c maxd rest (p.1, distance_sq c p.2.centroid)
      rw [h] at hs
      exact absurd hs (by simp)
    · rw [if_neg hc] at h
      obtain ⟨hb, hrest⟩ := ih b h
      subst hb
      refine ⟨rfl, ?_⟩
      intro q hq
      rcases List.mem_cons.mp hq with rfl | hq'
      · intro hqual
        exact hc ⟨hqual.1, True.intro, hqual.2⟩
      · exact hrest q hq'

theorem findMatchAux_skip_all (c : Int × Int) (maxd : Int) :
    ∀ (l : List (Nat × Track)) (b : Option (Nat × Int)),
    (∀ p ∈ l, ¬ qual c maxd p) → findMatchAux c maxd l b = b := by
  intro l
  induction l with
  | nil => intro b _; rfl
  | cons p rest ih =>
    intro b hall
    have hp : ¬ takeCond c maxd b p := fun hc =>
      hall p (List.mem_cons_self p rest) ⟨hc.1, hc.2.2⟩
    simp only [findMatchAux, if_neg hp]
    exact ih b fun q hq => hall q (List.mem_cons_of_mem _ hq)

theorem findMatchAux_some_spec (c : Int × Int) (maxd : Int) :
    ∀ (l : List (Nat × Track)) (i : Nat) (bd : Int) (m : Nat) (dm : Int),
    findMatchAux c maxd l (some (i, bd)) = some (m, dm) →
    (m = i ∧ dm = bd ∧
      ∀ p ∈ l, qual c maxd p → bd ≤ distance_sq c p.2.centroid) ∨
    (∃ t l1 l2, l = l1 ++ (m, t) :: l2 ∧ t.status = "active" ∧
      distance_sq c t.centroid = dm ∧ dm < maxd ∧ dm < bd ∧
      (∀ p ∈ l1, qual c maxd p → dm < distance_sq c p.2.centroid) ∧
      (∀ p ∈ l2, qual c maxd p → dm ≤ distance_sq c p.2.centroid)) := by
  intro l
  induction l with
  | nil =>
    intro i bd m dm h
    simp only [findMatchAux, Option.some.injEq, Prod.mk.injEq] at h
    exact Or.inl ⟨h.1.symm, h.2.symm, by simp⟩
  | cons p rest ih =>
    intro i bd m dm h
    simp only [findMatchAux] at h
    by_cases hc : takeCond c maxd (some (i, bd)) p
    · rw [if_pos hc] at h
      obtain ⟨hact, hbeat, hmaxd⟩ := hc
      have hdb : distance_sq c p.2.centroid < bd := hbeat
      rcases ih p.1 (distance_sq c p.2.centroid) m dm h with
        ⟨hm, hd, hall⟩ | ⟨t, l1, l2, hdec, hst, hdist, hlt, hltb, hfront, hback⟩
      · subst hm; subst hd
        exact Or.inr ⟨p.2, [], rest, by simp, hact, rfl, hmaxd, hdb, by simp, hall⟩
      · refine Or.inr ⟨t, p :: l1, l2, by rw [hdec]; rfl, hst, hdist, hlt,
          lt_trans hltb hdb, ?_, hback⟩
        intro q hq hql
        rcases List.mem_cons.mp hq with rfl | hq'
        · exact hltb
        · exact hfront q hq' hql
    · rw [if_neg hc] at h
      rcases ih i bd m dm h with
        ⟨hm, hd, hall⟩ | ⟨t, l1, l2, hdec, hst, hdist, hlt, hltb, hfront, hback⟩
      · refine Or.inl ⟨hm, hd, ?_⟩
        intro q hq hql
        rcases List.mem_cons.mp hq with rfl | hq'
        · by_contra hlt'
          push_neg at hlt'
          exact hc ⟨hql.1, hlt', hql.2⟩
        · exact hall q hq' hql
      · refine Or.inr ⟨t, p :: l1, l2, by rw [hdec]; rfl, hst, hdist, hlt, hltb, ?_, hback⟩
        intro q hq hql
        rcases List.mem_cons.mp hq with rfl | hq'
        · have hbd : bd ≤ distance_sq c q.2.centroid := by
            by_contra hlt'
            push_neg at hlt'
            exact hc ⟨hql.1, hlt', hql.2⟩
          exact lt_of_lt_of_le hltb hbd
        · exact hfront q hq' hql

theorem findMatch_some_spec (c : Int × Int) (maxd : Int) :
    ∀ (l : List (Nat × Track)) (m : Nat) (dm : Int),
    findMatch c maxd l = some (m, dm) →
    ∃ t l1 l2, l = l1 ++ (m, t) :: l2 ∧ t.status = "active" ∧
      distance_sq c t.centroid = dm ∧ dm < maxd ∧
      (∀ p ∈ l1, qual c maxd p → dm < distance_sq c p.2.centroid) ∧
      (∀ p ∈ l2, qual c maxd p → dm ≤ distance_sq c p.2.centroid) := by
  intro l
  induction l with
  | nil => intro m dm h; exact absurd h (by simp [findMatch, findMatchAux])
  | cons p rest ih =>
    intro m dm h
    unfold findMatch at h
    simp only [findMatchAux] at h
    by_cases hc : takeCond c maxd none p
    · rw [if_pos hc] at h
      obtain ⟨hact, -, hmaxd⟩ := hc
      rcases findMatchAux_some_spec c maxd rest p.1 _ m dm h with
        ⟨hm, hd, hall⟩ | ⟨t, l1, l2, hdec, hst, hdist, hlt, hltb, hfront, hback⟩
      · subst hm; subst hd
        exact ⟨p.2, [], rest, by simp, hact, rfl, hmaxd, by simp, hall⟩
      · refine ⟨t, p :: l1, l2, by rw [hdec]; rfl, hst, hdist, hlt, ?_, hback⟩
        intro q hq hql
        rcases List.mem_cons.mp hq with rfl | hq'
        · exact hltb
        · exact hfront q hq' hql
    · rw [if_neg hc] at h
      obtain ⟨t, l1, l2, hdec, hst, hdist, hlt, hfront, hback⟩ := ih m dm h
      refine ⟨t, p :: l1, l2, by rw [hdec]; rfl, hst, hdist, hlt, ?_, hback⟩
      intro q hq hql
      rcases List.mem_cons.mp hq with rfl | hq'
      · exact absurd ⟨hql.1, True.intro, hql.2⟩ hc
      · exact hfront q hq' hql

/-! ### C3: greedy nearest-neighbour association -/

/-- C3: for a processed person detection, if some active track is strictly
inside the gate then the matching loop returns the minimum-distance such
track — strictly closer than every qualifying track earlier in iteration
order (first minimum wins ties) — and exactly that track's bbox, centroid
and last-seen frame are rewritten, with no new id allocated; if no active
track is inside the gate, a fresh track is appended under id `next_id` and
the allocator advances by one. -/
theorem C3_greedy_match (st : PeopleTracker) (det : Detection) :
    ((∃ p ∈ st.tracked_objects, qual (detCentroid det) st.max_dist_sq p) →
      ∃ m dm t l1 l2,
        findMatch (detCentroid det) st.max_dist_sq st.tracked_objects
          = some (m, dm) ∧
        st.tracked_objects = l1 ++ (m, t) :: l2 ∧
        t.status = "active" ∧
        distance_sq (detCentroid det) t.centroid = dm ∧
        dm < st.max_dist_sq ∧
        (∀ p ∈ l1, qual (detCentroid det) st.max_dist_sq p →
          dm < distance_sq (detCentroid det) p.2.centroid) ∧
        (∀ p ∈ st.tracked_objects, qual (detCentroid det) st.max_dist_sq p →
          dm ≤ distance_sq (detCentroid det) p.2.centroid) ∧
        (processDetection st det).tracked_objects = (st.tracked_objects.map fun p =>
          if p.1 = m then
            (p.1, { p.2 with
                    bbox := detBbox det
                    centroid := detCentroid det
                    last_frame_id := st.frame_id })
          else p) ∧
        (processDetection st det).next_id = st.next_id) ∧
    ((∀ p ∈ st.tracked_objects, ¬ qual (detCentroid det) st.max_dist_sq p) →
      (processDetection st det).tracked_objects =
        st.tracked_objects ++ [(st.next_id, newTrack det st.frame_id)] ∧
      (processDetection st det).next_id = st.next_id + 1) := by
  constructor
  · intro hex
    obtain ⟨p0, hp0, hq0⟩ := hex
    cases hfind : findMatch (detCentroid det) st.max_dist_sq st.tracked_objects with
    | none =>
      exact absurd hq0
        ((findMatchAux_none_all (detCentroid det) st.max_dist_sq
          st.tracked_objects none hfind).2 p0 hp0)
    | some md =>
      obtain ⟨m, dm⟩ := md
      obtain ⟨t, l1, l2, hdec, hst, hdist, hlt, hfront, hback⟩ :=
        findMatch_some_spec (detCentroid det) st.max_dist_sq
          st.tracked_objects m dm hfind
      refine ⟨m, dm, t, l1, l2, rfl, hdec, hst, hdist, hlt, hfront, ?_,
        by simp [processDetection, hfind], by simp [processDetection, hfind]⟩
      intro q hq hql
      rw [hdec] at hq
      rcases List.mem_append.mp hq with h1 | h2
      · exact le_of_lt (hfront q h1 hql)
      · rcases List.mem_cons.mp h2 with rfl | h3
        · exact le_of_eq hdist.symm
        · exact hback q h3 hql
  · intro hall
    have hnone : findMatch (detCentroid det) st.max_dist_sq st.tracked_objects
        = none :=
      findMatchAux_skip_all (detCentroid det) st.max_dist_sq
        st.tracked_objects none hall
    exact ⟨by simp [processDetection, hnone], by simp [processDetection, hnone]⟩

/-! ### The counting loop leaves ids and last-seen frames unchanged -/

@[simp] theorem enter_eq_exit_iff : (("enter" : String) = "exit") ↔ False := by decide

@[simp] theorem exit_eq_enter_iff : (("exit" : String) = "enter") ↔ False := by decide

theorem countTrack_last (split eY exY : Int) (p : Nat × Track) (inc outc : Nat) :
    (countTrack split eY exY p inc outc).1.last_frame_id = p.2.last_frame_id := by
  simp only [countTrack]
  split_ifs <;> rfl

theorem countTrack_id_last (split eY exY : Int) (p : Nat × Track) (inc outc : Nat) :
    (p.1, (countTrack split eY exY p inc outc).1.last_frame_id)
      = (p.1, p.2.last_frame_id) := by
  rw [countTrack_last]

theorem countFold_id_last (split eY exY : Int) :
    ∀ (l : List (Nat × Track)) (inc outc : Nat),
    ((countFold split eY exY l inc outc).1.map fun p => (p.1, p.2.last_frame_id))
      = l.map fun p => (p.1, p.2.last_frame_id) := by
  intro l
  induction l with
  | nil => intro inc outc; rfl
  | cons p rest ih =>
    intro inc outc
    simp only [countFold, List.map_cons, countTrack_last, ih]

theorem countingPhase_id_last (st : PeopleTracker) (n : Nat) :
    ((countingPhase st n).2.tracked_objects.map fun p => (p.1, p.2.last_frame_id))
      = st.tracked_objects.map fun p => (p.1, p.2.last_frame_id) := by
  unfold countingPhase
  split
  · rfl
  · split
    · exact countFold_id_last _ _ _ _ _ _
    · rfl

/-! ### C4: staleness eviction -/

/-- C4: in any call to `update`, the set of tracks (ids with their
last-seen frames) surviving the call is exactly the post-association set
restricted to gaps not exceeding the staleness threshold: a track stays in
`removeStale` output iff `frame_id - last_frame_id ≤ stale_frame_threshold`
(i.e. it is removed iff the gap exceeds the threshold), and a track matched
by no detection keeps its entry — including `last_frame_id` — unchanged
through association. -/
theorem C4_stale_eviction (st : PeopleTracker) (dets : List Detection)
    (fh fw : Nat) :
    (((update st dets fh fw).state.tracked_objects.map
        fun p => (p.1, p.2.last_frame_id))
      = ((removeStale (associate
          (initThresholds { st with frame_id := st.frame_id + 1 } fh fw)
          (dets.filter fun d => decide (detLabel d = "person")))).tracked_objects.map
            fun p => (p.1, p.2.last_frame_id))) ∧
    (∀ (st' : PeopleTracker) (p : Nat × Track),
      p ∈ (removeStale st').tracked_objects ↔
        p ∈ st'.tracked_objects ∧
          st'.frame_id - p.2.last_frame_id ≤ st'.stale_frame_threshold) ∧
    (∀ (st' : PeopleTracker) (det : Detection) (p : Nat × Track),
      p ∈ st'.tracked_objects →
      (∀ dm, findMatch (detCentroid det) st'.max_dist_sq st'.tracked_objects
        ≠ some (p.1, dm)) →
      p ∈ (processDetection st' det).tracked_objects) := by
  refine ⟨?_, ?_, ?_⟩
  · simp only [update]
    exact countingPhase_id_last _ _
  · intro st' p
    simp [removeStale, List.mem_filter]
  · intro st' det p hp hne
    cases hfind : findMatch (detCentroid det) st'.max_dist_sq st'.tracked_objects with
    | none =>
      simp only [processDetection, hfind]
      exact List.mem_append_left _ hp
    | some md =>
      obtain ⟨m, dm⟩ := md
      have hm : p.1 ≠ m := by
        intro he
        exact hne dm (by rw [hfind, he])
      simp only [processDetection, hfind]
      exact List.mem_map.mpr ⟨p, hp, by simp [hm]⟩

/-! ### Concrete fixtures for witnesses -/

/-- An active track at centroid `(100, 100)`. -/
def c3Track : Track :=
  { bbox := (90, 90, 110, 110)
    centroid := (100, 100)
    lane := "unknown"
    status := "active"
    counted_in := false
    counted_out := false
    last_frame_id := 1 }

/-- A state holding exactly track 0 = `c3Track`. -/
def c3St : PeopleTracker :=
  { initTracker "Eagle‑Eye" with
    tracked_objects := [(0, c3Track)]
    next_id := 1
    frame_id := 2 }

/-- A person detection with centroid `(102, 100)`, inside the gate of
track 0. -/
def c3Det : Detection := (92, 90, 112, 110, "person")

/-- A person detection with centroid `(1005, 1005)`, outside the gate of
every track of `c3St`. -/
def c4Det : Detection := (1000, 1000, 1010, 1010, "person")

/-- Witness for C3: in `c3St`, detection `c3Det` has a qualifying track,
and the matched-case conclusion holds there. -/
theorem C3_greedy_match_witness :
    (∃ p ∈ c3St.tracked_objects, qual (detCentroid c3Det) c3St.max_dist_sq p) ∧
    (∃ m dm t l1 l2,
      findMatch (detCentroid c3Det) c3St.max_dist_sq c3St.tracked_objects
        = some (m, dm) ∧
      c3St.tracked_objects = l1 ++ (m, t) :: l2 ∧
      t.status = "active" ∧
      distance_sq (detCentroid c3Det) t.centroid = dm ∧
      dm < c3St.max_dist_sq ∧
      (∀ p ∈ l1, qual (detCentroid c3Det) c3St.max_dist_sq p →
        dm < distance_sq (detCentroid c3Det) p.2.centroid) ∧
      (∀ p ∈ c3St.tracked_objects, qual (detCentroid c3Det) c3St.max_dist_sq p →
        dm ≤ distance_sq (detCentroid c3Det) p.2.centroid) ∧
      (processDetection c3St c3Det).tracked_objects = (c3St.tracked_objects.map fun p =>
        if p.1 = m then
          (p.1, { p.2 with
                  bbox := detBbox c3Det
                  centroid := detCentroid c3Det
                  last_frame_id := c3St.frame_id })
        else p) ∧
      (processDetection c3St c3Det).next_id = c3St.next_id) :=
  ⟨⟨(0, c3Track), by decide, by decide⟩,
    (C3_greedy_match c3St c3Det).1 ⟨(0, c3Track), by decide, by decide⟩⟩

/-- Witness for C4: track 0 of `c3St` is matched by no detection when the
only detection is far away, and it survives association unchanged. -/
theorem C4_stale_eviction_witness :
    (0, c3Track) ∈ (processDetection c3St c4Det).tracked_objects :=
  (C4_stale_eviction (initTracker "Eagle‑Eye") [] 480 640).2.2 c3St c4Det
    (0, c3Track) (by decide)
    (fun dm h => by
      have hn : findMatch (detCentroid c4Det) c3St.max_dist_sq
          c3St.tracked_objects = none := by decide
      rw [hn] at h
      exact Option.noConfusion h)

/-! ### C2: crossing events are counted exactly once -/

/-- C2: in the Lane Counter loop body, `in_count` gains exactly 1 and
`counted_in` is set precisely when the track is in the entering lane
(`centroid.x < split`), its bottom edge `y2` exceeds the entry threshold,
and `counted_in` is still false — symmetrically for `out_count` with the
exiting lane, `y1` below the exit threshold and `counted_out` false; on an
already-counted track the check is a no-op, and association never clears
either flag, so each track contributes at most 1 to each counter over its
lifetime. -/
theorem C2_crossing_idempotent (split eY exY : Int) (p : Nat × Track)
    (inc outc : Nat) :
    ((p.2.centroid.1 < split ∧ p.2.bbox.2.2.2 > eY ∧ p.2.counted_in = false) →
      (countTrack split eY exY p inc outc).2.1 = inc + 1 ∧
      (countTrack split eY exY p inc outc).1.counted_in = true) ∧
    (¬ (p.2.centroid.1 < split ∧ p.2.bbox.2.2.2 > eY ∧ p.2.counted_in = false) →
      (countTrack split eY exY p inc outc).2.1 = inc ∧
      (countTrack split eY exY p inc outc).1.counted_in = p.2.counted_in) ∧
    ((¬ p.2.centroid.1 < split ∧ p.2.bbox.2.1 < exY ∧ p.2.counted_out = false) →
      (countTrack split eY exY p inc outc).2.2 = outc + 1 ∧
      (countTrack split eY exY p inc outc).1.counted_out = true) ∧
    (¬ (¬ p.2.centroid.1 < split ∧ p.2.bbox.2.1 < exY ∧ p.2.counted_out = false) →
      (countTrack split eY exY p inc outc).2.2 = outc ∧
      (countTrack split eY exY p inc outc).1.counted_out = p.2.counted_out) ∧
    (p.2.counted_in = true →
      (countTrack split eY exY p inc outc).2.1 = inc ∧
      (countTrack split eY exY p inc outc).1.counted_in = true) ∧
    (p.2.counted_out = true →
      (countTrack split eY exY p inc outc).2.2 = outc ∧
      (countTrack split eY exY p inc outc).1.counted_out = true) ∧
    (∀ (st : PeopleTracker) (det : Detection), ∀ q ∈ st.tracked_objects,
      ∃ q', q' ∈ (processDetection st det).tracked_objects ∧ q'.1 = q.1 ∧
        q'.2.counted_in = q.2.counted_in ∧ q'.2.counted_out = q.2.counted_out) := by
  refine ⟨?_, ?_, ?_, ?_, ?_, ?_, ?_⟩
  · intro h
    simp only [countTrack]
    split_ifs <;> simp_all
  · intro h
    simp only [countTrack]
    split_ifs <;> simp_all
  · intro h
    simp only [countTrack]
    split_ifs <;> simp_all
  · intro h
    simp only [countTrack]
    split_ifs <;> simp_all
  · intro h
    simp only [countTrack]
    split_ifs <;> simp_all
  · intro h
    simp only [countTrack]
    split_ifs <;> simp_all
  · intro st det q hq
    cases hfind : findMatch (detCentroid det) st.max_dist_sq st.tracked_objects with
    | none =>
      refine ⟨q, ?_, rfl, rfl, rfl⟩
      simp only [processDetection, hfind]
      exact List.mem_append_left _ hq
    | some md =>
      by_cases hqm : q.1 = md.1
      · refine ⟨(q.1, { q.2 with
            bbox := detBbox det
            centroid := detCentroid det
            last_frame_id := st.frame_id }), ?_, rfl, rfl, rfl⟩
        simp only [processDetection, hfind]
        exact List.mem_map.mpr ⟨q, hq, by simp [hqm]⟩
      · refine ⟨q, ?_, rfl, rfl, rfl⟩
        simp only [processDetection, hfind]
        exact List.mem_map.mpr ⟨q, hq, by simp [hqm]⟩

/-- A track in the entering lane whose bottom edge is past the entry
threshold and which has not been counted yet. -/
def c2Track : Track :=
  { bbox := (90, 400, 110, 440)
    centroid := (100, 100)
    lane := "unknown"
    status := "active"
    counted_in := false
    counted_out := false
    last_frame_id := 1 }

/-- Witness for C2: with lane split 320 and entry threshold 432, track
`c2Track` (bottom edge 440) fires the entry crossing: the counter gains
exactly 1 and the guard flag is set. -/
theorem C2_crossing_idempotent_witness :
    (countTrack 320 432 48 (0, c2Track) 0 0).2.1 = 0 + 1 ∧
    (countTrack 320 432 48 (0, c2Track) 0 0).1.counted_in = true :=
  (C2_crossing_idempotent 320 432 48 (0, c2Track) 0 0).1 (by decide)

/-! ### C8: lazy boundary configuration, constant thereafter -/

theorem initThresholds_other (st : PeopleTracker) (fh fw : Nat)
    (h : ¬ st.mode = "Lane Counter") : initThresholds st fh fw = st := by
  unfold initThresholds
  rw [if_neg h]

/-- C8: in Lane Counter mode the boundary configuration is filled in
lazily from the first frame's dimensions — lane split `w / 2`, entry
threshold `int(h * 0.9)`, exit threshold `int(h * 0.1)` — and a threshold
already set is never changed by `update`; on each pass of the counting
loop a track's lane is recomputed purely from its centroid's
x-coordinate: strictly left of the split ⇒ `enter`, otherwise `exit`,
whatever the prior label was. -/
theorem C8_lazy_thresholds (st : PeopleTracker) (dets : List Detection)
    (fh fw : Nat) :
    (st.mode = "Lane Counter" → st.lane_split_x = none →
      (update st dets fh fw).state.lane_split_x = some ((fw / 2 : Nat) : Int)) ∧
    (st.mode = "Lane Counter" → st.entry_y_threshold = none →
      (update st dets fh fw).state.entry_y_threshold
        = some ((9 * fh / 10 : Nat) : Int)) ∧
    (st.mode = "Lane Counter" → st.exit_y_threshold = none →
      (update st dets fh fw).state.exit_y_threshold
        = some ((fh / 10 : Nat) : Int)) ∧
    (∀ v, st.lane_split_x = some v →
      (update st dets fh fw).state.lane_split_x = some v) ∧
    (∀ v, st.entry_y_threshold = some v →
      (update st dets fh fw).state.entry_y_threshold = some v) ∧
    (∀ v, st.exit_y_threshold = some v →
      (update st dets fh fw).state.exit_y_threshold = some v) ∧
    (∀ (split eY exY : Int) (p : Nat × Track) (inc outc : Nat),
      (countTrack split eY exY p inc outc).1.lane
        = if p.2.centroid.1 < split then "enter" else "exit") := by
  refine ⟨?_, ?_, ?_, ?_, ?_, ?_, ?_⟩
  · intro hm hn
    simp only [update, countingPhase_lane_split, removeStale_lane_split,
      associate_lane_split]
    unfold initThresholds
    simp [hm, hn]
  · intro hm hn
    simp only [update, countingPhase_entry, removeStale_entry, associate_entry]
    unfold initThresholds
    simp [hm, hn]
  · intro hm hn
    simp only [update, countingPhase_exit, removeStale_exit, associate_exit]
    unfold initThresholds
    simp [hm, hn]
  · intro v hv
    simp only [update, countingPhase_lane_split, removeStale_lane_split,
      associate_lane_split]
    unfold initThresholds
    split
    · simp [hv]
    · simp [hv]
  · intro v hv
    simp only [update, countingPhase_entry, removeStale_entry, associate_entry]
    unfold initThresholds
    split
    · simp [hv]
    · simp [hv]
  · intro v hv
    simp only [update, countingPhase_exit, removeStale_exit, associate_exit]
    unfold initThresholds
    split
    · simp [hv]
    · simp [hv]
  · intro split eY exY p inc outc
    simp only [countTrack]
    split_ifs <;> simp_all

/-- Witness for C8: a fresh Lane Counter engine on a 480×640 frame derives
lane split 320. -/
theorem C8_lazy_thresholds_witness :
    (update (initTracker "Lane Counter") [] 480 640).state.lane_split_x
      = some 320 :=
  ((C8_lazy_thresholds (initTracker "Lane Counter") [] 480 640).1 rfl rfl).trans
    (by decide)

/-! ### C9: monotone counters and the unclamped aggregate -/

theorem countTrack_in_le (split eY exY : Int) (p : Nat × Track)
    (inc outc : Nat) : inc ≤ (countTrack split eY exY p inc outc).2.1 := by
  simp only [countTrack]
  split_ifs <;> simp

theorem countTrack_out_le (split eY exY : Int) (p : Nat × Track)
    (inc outc : Nat) : outc ≤ (countTrack split eY exY p inc outc).2.2 := by
  simp only [countTrack]
  split_ifs <;> simp

theorem countFold_in_le (split eY exY : Int) :
    ∀ (l : List (Nat × Track)) (inc outc : Nat),
    inc ≤ (countFold split eY exY l inc outc).2.1 := by
  intro l
  induction l with
  | nil => intro inc outc; exact le_refl _
  | cons p rest ih =>
    intro inc outc
    simp only [countFold]
    exact le_trans (countTrack_in_le split eY exY p inc outc) (ih _ _)

theorem countFold_out_le (split eY exY : Int) :
    ∀ (l : List (Nat × Track)) (inc outc : Nat),
    outc ≤ (countFold split eY exY l inc outc).2.2 := by
  intro l
  induction l with
  | nil => intro inc outc; exact le_refl _
  | cons p rest ih =>
    intro inc outc
    simp only [countFold]
    exact le_trans (countTrack_out_le split eY exY p inc outc) (ih _ _)

theorem countingPhase_in_le (st : PeopleTracker) (n : Nat) :
    st.in_count ≤ (countingPhase st n).2.in_count := by
  unfold countingPhase
  split
  · exact le_refl _
  · split
    · exact countFold_in_le _ _ _ _ _ _
    · exact le_refl _

theorem countingPhase_out_le (st : PeopleTracker) (n : Nat) :
    st.out_count ≤ (countingPhase st n).2.out_count := by
  unfold countingPhase
  split
  · exact le_refl _
  · split
    · exact countFold_out_le _ _ _ _ _ _
    · exact le_refl _

/-- C9: across any `update` call, `in_count` and `out_count` never
decrease, and in Lane Counter mode the reported aggregate is the integer
difference `in_count - out_count` — which, as the closed second part
shows on a concrete run, can be negative and is not clamped. -/
theorem C9_counts_monotone :
    (∀ (st : PeopleTracker) (dets : List Detection) (fh fw : Nat),
      st.in_count ≤ (update st dets fh fw).state.in_count ∧
      st.out_count ≤ (update st dets fh fw).state.out_count ∧
      (st.mode = "Lane Counter" →
        (update st dets fh fw).net_people_total =
          ((update st dets fh fw).state.in_count : Int)
            - ((update st dets fh fw).state.out_count : Int))) ∧
    (update (initTracker "Lane Counter")
      [(400, 10, 450, 60, "person")] 480 640).net_people_total < 0 := by
  constructor
  · intro st dets fh fw
    refine ⟨?_, ?_, ?_⟩
    · simp only [update]
      refine le_trans (le_of_eq ?_) (countingPhase_in_le _ _)
      simp
    · simp only [update]
      refine le_trans (le_of_eq ?_) (countingPhase_out_le _ _)
      simp
    · intro hm
      have h4 : (removeStale (associate
          (initThresholds { st with frame_id := st.frame_id + 1 } fh fw)
          (dets.filter fun d => decide (detLabel d = "person")))).mode
          = "Lane Counter" := by
        simp [hm]
      simp only [update]
      unfold countingPhase
      rw [h4, if_neg (by decide : ¬ ("Lane Counter" : String) = "Eagle‑Eye"),
        if_pos rfl]
  · decide

/-- Witness for C9: a fresh Lane Counter engine whose single person
detection crosses the exit line reports `in_count - out_count` as the
aggregate. -/
theorem C9_counts_monotone_witness :
    (update (initTracker "Lane Counter")
        [(400, 10, 450, 60, "person")] 480 640).net_people_total =
      ((update (initTracker "Lane Counter")
        [(400, 10, 450, 60, "person")] 480 640).state.in_count : Int)
        - ((update (initTracker "Lane Counter")
          [(400, 10, 450, 60, "person")] 480 640).state.out_count : Int) :=
  (C9_counts_monotone.1 (initTracker "Lane Counter")
    [(400, 10, 450, 60, "person")] 480 640).2.2 rfl

/-! ### C10: Eagle‑Eye calls leave the counting state alone -/

theorem processDetection_flags (st : PeopleTracker) (det : Detection) :
    ∀ p ∈ (processDetection st det).tracked_objects,
      (∃ t, (p.1, t) ∈ st.tracked_objects ∧
        t.counted_in = p.2.counted_in ∧ t.counted_out = p.2.counted_out) ∨
      (p.2.counted_in = false ∧ p.2.counted_out = false) := by
  intro p hp
  cases hfind : findMatch (detCentroid det) st.max_dist_sq st.tracked_objects with
  | none =>
    simp only [processDetection, hfind] at hp
    rcases List.mem_append.mp hp with h1 | h2
    · exact Or.inl ⟨p.2, h1, rfl, rfl⟩
    · have hpe := List.mem_singleton.mp h2
      subst hpe
      exact Or.inr ⟨rfl, rfl⟩
  | some md =>
    simp only [processDetection, hfind] at hp
    rcases List.mem_map.mp hp with ⟨q, hq, hfq⟩
    by_cases hqm : q.1 = md.1
    · rw [if_pos hqm] at hfq
      subst hfq
      exact Or.inl ⟨q.2, hq, rfl, rfl⟩
    · rw [if_neg hqm] at hfq
      subst hfq
      exact Or.inl ⟨q.2, hq, rfl, rfl⟩

theorem associate_flags (l : List Detection) :
    ∀ (st : PeopleTracker), ∀ p ∈ (associate st l).tracked_objects,
      (∃ t, (p.1, t) ∈ st.tracked_objects ∧
        t.counted_in = p.2.counted_in ∧ t.counted_out = p.2.counted_out) ∨
      (p.2.counted_in = false ∧ p.2.counted_out = false) := by
  induction l with
  | nil => intro st p hp; exact Or.inl ⟨p.2, hp, rfl, rfl⟩
  | cons d l ih =>
    intro st p hp
    rw [associate_cons] at hp
    rcases ih (processDetection st d) p hp with ⟨t, ht, h1, h2⟩ | hf
    · rcases processDetection_flags st d (p.1, t) ht with ⟨t', ht', h1', h2'⟩ | hf'
      · exact Or.inl ⟨t', ht', h1'.trans h1, h2'.trans h2⟩
      · exact Or.inr ⟨h1 ▸ hf'.1, h2 ▸ hf'.2⟩
    · exact Or.inr hf

/-- C10: a call to `update` in Eagle‑Eye mode leaves `in_count`,
`out_count` and all three boundary thresholds unchanged, returns the
pre-call counter values (stale or not), advances only the frame counter,
and every surviving track either carries the `counted_in`/`counted_out`
flags of a pre-call track with its id or is newly created with both flags
false. -/
theorem C10_eagle_frame_effect (st : PeopleTracker) (dets : List Detection)
    (fh fw : Nat) (hm : st.mode = "Eagle‑Eye") :
    (update st dets fh fw).state.in_count = st.in_count ∧
    (update st dets fh fw).state.out_count = st.out_count ∧
    (update st dets fh fw).state.lane_split_x = st.lane_split_x ∧
    (update st dets fh fw).state.entry_y_threshold = st.entry_y_threshold ∧
    (update st dets fh fw).state.exit_y_threshold = st.exit_y_threshold ∧
    (update st dets fh fw).state.mode = st.mode ∧
    (update st dets fh fw).state.frame_id = st.frame_id + 1 ∧
    (update st dets fh fw).in_count = st.in_count ∧
    (update st dets fh fw).out_count = st.out_count ∧
    (∀ p ∈ (update st dets fh fw).state.tracked_objects,
      (∃ t, (p.1, t) ∈ st.tracked_objects ∧
        t.counted_in = p.2.counted_in ∧ t.counted_out = p.2.counted_out) ∨
      (p.2.counted_in = false ∧ p.2.counted_out = false)) := by
  have h4 : (removeStale (associate
      (initThresholds { st with frame_id := st.frame_id + 1 } fh fw)
      (dets.filter fun d => decide (detLabel d = "person")))).mode
      = "Eagle‑Eye" := by
    simp [hm]
  have hupd : (update st dets fh fw).state = removeStale (associate
      (initThresholds { st with frame_id := st.frame_id + 1 } fh fw)
      (dets.filter fun d => decide (detLabel d = "person"))) := by
    simp only [update, countingPhase_eagle _ _ h4]
  have hne : ¬ ({ st with frame_id := st.frame_id + 1 } : PeopleTracker).mode
      = "Lane Counter" := by
    show ¬ st.mode = "Lane Counter"
    rw [hm]
    decide
  have hinit : initThresholds { st with frame_id := st.frame_id + 1 } fh fw
      = { st with frame_id := st.frame_id + 1 } :=
    initThresholds_other _ _ _ hne
  refine ⟨?_, ?_, ?_, ?_, ?_, ?_, ?_, ?_, ?_, ?_⟩
  · rw [hupd]; simp [hinit]
  · rw [hupd]; simp [hinit]
  · rw [hupd]; simp [hinit]
  · rw [hupd]; simp [hinit]
  · rw [hupd]; simp [hinit]
  · rw [hupd]; simp [hinit]
  · rw [hupd]; simp [hinit]
  · show (update st dets fh fw).state.in_count = st.in_count
    rw [hupd]; simp [hinit]
  · show (update st dets fh fw).state.out_count = st.out_count
    rw [hupd]; simp [hinit]
  · intro p hp
    rw [hupd] at hp
    have hp' := (List.mem_filter.mp hp).1
    rcases associate_flags _ _ p hp' with ⟨t, ht, h1, h2⟩ | hf
    · rw [hinit] at ht
      exact Or.inl ⟨t, ht, h1, h2⟩
    · exact Or.inr hf

/-- Witness for C10 at a concrete Eagle‑Eye engine state. -/
theorem C10_eagle_frame_effect_witness :
    (update (initTracker "Eagle‑Eye") [(1, 2, 3, 4, "person")] 480 640).state.in_count
      = (initTracker "Eagle‑Eye").in_count :=
  (C10_eagle_frame_effect (initTracker "Eagle‑Eye") [(1, 2, 3, 4, "person")]
    480 640 rfl).1
